import Mathlib

/-!
Verification of the Momentum coaching app (`app.py`, `brain.py`) via a
shallow embedding of its turn handling, routing and persistence logic.

Conventions of the embedding:
* Python strings are Lean `String`s; `str.lower` is `String.toLower`
  (the keywords and patterns involved are ASCII or Chinese, where the two
  agree), `str.strip` is `pyStrip` over the ASCII whitespace class.
* Python exceptions are `Except PyErr`; a raised-and-propagated exception
  is `Except.error`.
* The pandas journal / plans CSVs are lists of typed rows; the on-disk
  states that matter to the code (missing or size-0 file, parse error,
  parsed table) are constructors of small file-state inductives.
* The LLM is opaque: its possible results are quantified over.
-/

namespace Momentum

/-! ## Safety keywords and message (`app.py` lines 17-43) -/

def SAFETY_KEYWORDS : List String :=
  [ -- English
    "suicide",
    "kill myself",
    "want to die",
    "want to end it all",
    "end my life",
    "self-harm",
    "self harm",
    -- Chinese (kept for detection)
    "自殺",
    "想死",
    "不想活了",
    "活不下去",
    "想結束一切",
    "傷害自己" ]

def SAFETY_MESSAGE : String :=
  "⚠️ I noticed you mentioned content that may be related to self-harm or life safety.\n\n" ++
  "I am an AI and do not have medical or psychological professional qualifications, " ++
  "and I cannot provide immediate assistance in emergency situations.\n\n" ++
  "👉 If you are in **immediate danger**, please contact your local emergency number (e.g., 911) immediately,\n" ++
  "or call your local suicide prevention/mental health hotline, and seek support from family, friends, or trusted people.\n\n" ++
  "You deserve to be treated well and to be truly seen and helped."

/-! ## Substring containment (Python `keyword in lowered`) -/

/-- `containsSub needle hay`: `needle` occurs as a contiguous run in `hay`. -/
def containsSub (needle : List Char) : List Char → Bool
  | [] => needle.isEmpty
  | c :: t => needle.isPrefixOf (c :: t) || containsSub needle t

def strContains (hay needle : String) : Bool :=
  containsSub needle.data hay.data

/-- Python `str.lower()`; `Char.toLower` agrees with it on ASCII and leaves
the Chinese keywords untouched, which is all the code relies on. -/
def pyLower (s : String) : String :=
  ⟨s.data.map Char.toLower⟩

/-- `app.py` line 661-662: `lowered = prompt.lower()` then
`any(keyword in lowered for keyword in SAFETY_KEYWORDS)`. -/
def containsSafetyKeyword (prompt : String) : Bool :=
  SAFETY_KEYWORDS.any (fun keyword => strContains (pyLower prompt) keyword)

/-! ## Input guardrail (`app.py` lines 48-84) -/

/-- Python `\s` on the ASCII range (`re` whitespace class). -/
def isPyWs (c : Char) : Bool :=
  c == ' ' || c == '\t' || c == '\n' || c == '\r' || c == '\x0b' || c == '\x0c'

/-- Python `str.strip()` restricted to the ASCII whitespace class. -/
def pyStrip (s : String) : String :=
  ⟨((s.data.dropWhile isPyWs).reverse.dropWhile isPyWs).reverse⟩

/-- A fragment of Python regular expressions, enough for the seven
`dangerous_patterns` of `input_guard`: the empty pattern, literals, `\s+`,
sequencing, an optional group `(...)?` and a two-way alternation `(...|...)`. -/
inductive Pat where
  | eps
  | lit (cs : List Char)
  | ws
  | seq (p q : Pat)
  | opt (p : Pat)
  | alt (p q : Pat)

/-- Remainders after consuming one-or-more whitespace characters (`\s+`). -/
def wsTails : List Char → List (List Char)
  | [] => []
  | c :: t => if isPyWs c then t :: wsTails t else []

/-- All remainders of `h` after matching the pattern at its front. -/
def matchPat : Pat → List Char → List (List Char)
  | Pat.eps, h => [h]
  | Pat.lit cs, h => if cs.isPrefixOf h then [h.drop cs.length] else []
  | Pat.ws, h => wsTails h
  | Pat.seq p q, h => ((matchPat p h).map (fun h2 => matchPat q h2)).flatten
  | Pat.opt p, h => h :: matchPat p h
  | Pat.alt p q, h => matchPat p h ++ matchPat q h

/-- Sequence a list of pattern elements. -/
def seqAll (ps : List Pat) : Pat :=
  ps.foldr Pat.seq Pat.eps

/-- `c?`. -/
def optChar (c : Char) : Pat :=
  Pat.opt (Pat.lit [c])

/-- `re.search`: the pattern matches starting at some position of `h`. -/
def searchPat (p : Pat) : List Char → Bool
  | [] => !(matchPat p []).isEmpty
  | c :: t => !(matchPat p (c :: t)).isEmpty || searchPat p t

/-- The seven `dangerous_patterns` of `input_guard` (`app.py` lines 69-77). -/
def dangerous_patterns : List Pat :=
  [ -- ignore\s+all\s+(previous\s+)?instructions?
    seqAll [Pat.lit "ignore".data, Pat.ws, Pat.lit "all".data, Pat.ws,
      Pat.opt (seqAll [Pat.lit "previous".data, Pat.ws]),
      Pat.lit "instruction".data, optChar 's'],
    -- forget\s+(all\s+)?(previous\s+)?(rules?|instructions?)
    seqAll [Pat.lit "forget".data, Pat.ws,
      Pat.opt (seqAll [Pat.lit "all".data, Pat.ws]),
      Pat.opt (seqAll [Pat.lit "previous".data, Pat.ws]),
      Pat.alt (seqAll [Pat.lit "rule".data, optChar 's'])
        (seqAll [Pat.lit "instruction".data, optChar 's'])],
    -- system\s+prompt
    seqAll [Pat.lit "system".data, Pat.ws, Pat.lit "prompt".data],
    -- you\s+are\s+now
    seqAll [Pat.lit "you".data, Pat.ws, Pat.lit "are".data, Pat.ws, Pat.lit "now".data],
    -- act\s+as\s+if
    seqAll [Pat.lit "act".data, Pat.ws, Pat.lit "as".data, Pat.ws, Pat.lit "if".data],
    -- pretend\s+to\s+be
    seqAll [Pat.lit "pretend".data, Pat.ws, Pat.lit "to".data, Pat.ws, Pat.lit "be".data],
    -- roleplay\s+as
    seqAll [Pat.lit "roleplay".data, Pat.ws, Pat.lit "as".data] ]

/-- `input_guard` (`app.py` lines 48-84).  The `isinstance(user_text, str)`
branch is vacuous in the typed embedding.  Returns `(is_valid, error_message)`. -/
def input_guard (user_text : String) : Bool × String :=
  if (pyStrip user_text).length < 2 then
    (false, "Please say more so I can help you better.")
  else if user_text.length > 10000 then
    (false, "Your message is too long. Please break it into smaller parts.")
  else if dangerous_patterns.any (fun p => searchPat p (pyLower user_text).data) then
    (false, "I cannot process this type of request. Please rephrase your message.")
  else
    (true, "")

/-! ## The chat turn handler (`app.py` lines 647-704) -/

/-- Observable outcome of one chat turn: the assistant message appended to
the session (if any), whether the brain (LLM graph) was invoked, and whether
any persistence write (profile file, journal CSV, plans CSV) happened. -/
structure TurnOutcome where
  output : Option String
  llmCalled : Bool
  persistenceWrites : Bool
deriving DecidableEq

/-- One chat turn of `app.py` (lines 647-704): run `input_guard`; on failure
show a warning and drop the prompt (no assistant message, no brain call);
otherwise check the safety keywords and on a match append exactly
`SAFETY_MESSAGE` without entering the brain; otherwise invoke the brain.
`brainWrites` / `brainOutput` stand for whatever the opaque brain does. -/
def processTurn (prompt : String) (brainWrites : Bool) (brainOutput : String) : TurnOutcome :=
  if (input_guard prompt).1 = false then
    { output := none, llmCalled := false, persistenceWrites := false }
  else if containsSafetyKeyword prompt then
    { output := some SAFETY_MESSAGE, llmCalled := false, persistenceWrites := false }
  else
    { output := some brainOutput, llmCalled := true, persistenceWrites := brainWrites }

/-! ## Python errors -/

/-- Exceptions that the modelled code can raise and not catch. -/
inductive PyErr where
  | ioError
  | parserError
  | attributeError
deriving DecidableEq

/-! ## Profile store (`brain.py` lines 27-86) -/

/-- The user profile dictionary (`vision`, `system`, `last_updated`).
The app only ever writes strings into these JSON fields, so they are
modelled as optional strings (`none` = JSON null / absent key). -/
structure UserProfile where
  vision : Option String
  system : Option String
  last_updated : Option String
deriving DecidableEq

/-- On-disk states of `data/user_profile.json` that `load_user_profile`
distinguishes: missing file, unreadable file (`IOError`), content that is
not valid JSON (includes the empty file, `json.JSONDecodeError`), valid
JSON that is not an object (a list/string/number — `profile.get` then
raises `AttributeError`, which the code does not catch), and a JSON
object with the three fields. -/
inductive ProfileFile where
  | missing
  | unreadable
  | invalidJson
  | jsonNonObject
  | jsonObject (vision system lastUpdated : Option String)
deriving DecidableEq

/-- `load_user_profile` (`brain.py` lines 27-57): missing file, unreadable
file and invalid JSON all fall through to the default structure; a JSON
object is projected onto the three keys; valid JSON that is not an object
raises `AttributeError` at `profile.get("vision")`. -/
def load_user_profile : ProfileFile → Except PyErr UserProfile
  | ProfileFile.missing => Except.ok ⟨none, none, none⟩
  | ProfileFile.unreadable => Except.ok ⟨none, none, none⟩
  | ProfileFile.invalidJson => Except.ok ⟨none, none, none⟩
  | ProfileFile.jsonNonObject => Except.error PyErr.attributeError
  | ProfileFile.jsonObject v s u => Except.ok ⟨v, s, u⟩

/-- `save_user_profile` (`brain.py` lines 60-86): overwrites the profile
file with the two fields and today's date.  The function has no
`try`/`except`, so a failing write (`writeFails`) raises and propagates. -/
def save_user_profile (writeFails : Bool) (vision system today : String) :
    Except PyErr ProfileFile :=
  if writeFails then Except.error PyErr.ioError
  else Except.ok (ProfileFile.jsonObject (some vision) (some system) (some today))

/-! ## Journal store (`app.py` lines 244-313, 548-570) -/

/-- One row of `data/mind_flow_db.csv`. -/
structure JRow where
  timestamp : String
  mood : String
  energy : Int
  note : String
deriving DecidableEq

/-- On-disk states of the journal CSV that the code distinguishes:
missing-or-size-0 file, a parse failure (`EmptyDataError`/`ParserError`),
and a parsed table.  The legacy `type` column, which both readers drop, is
normalised away in the `table` constructor. -/
inductive JournalFile where
  | absent
  | malformed
  | table (rows : List JRow)
deriving DecidableEq

def required_cols : List String :=
  ["Timestamp", "Mood", "Energy", "Note"]

/-- `load_mind_flow_db` (`app.py` lines 244-262): returns the four-column
frame; a missing/empty/unparseable file yields the empty frame with the
required columns.  Never raises. -/
def load_mind_flow_db : JournalFile → List String × List JRow
  | JournalFile.absent => (required_cols, [])
  | JournalFile.malformed => (required_cols, [])
  | JournalFile.table rows => (required_cols, rows)

/-- The duplicate predicate of `save_to_mind_flow_db` (`app.py` lines
285-293): exact match on all four fields. -/
def matchesTuple (timestamp mood : String) (energy : Int) (note : String) (r : JRow) : Bool :=
  r.timestamp == timestamp && r.mood == mood && r.energy == energy && r.note == note

/-- `save_to_mind_flow_db` (`app.py` lines 265-313).  Reads the existing
file; if the exact tuple is already present it returns the existing frame
without writing; otherwise it appends the entry and writes.  A failing
write (`writeFails`, the `df.to_csv` raising) is caught: the function logs,
tries a backup, and returns `None` — the main file is left unchanged.
Result: `(new on-disk state, value returned to the caller)`. -/
def save_to_mind_flow_db (writeFails : Bool) (timestamp mood : String) (energy : Int)
    (note : String) (f : JournalFile) : JournalFile × Option (List JRow) :=
  let new_entry : JRow := ⟨timestamp, mood, energy, note⟩
  match f with
  | JournalFile.absent =>
    if writeFails then (JournalFile.absent, none)
    else (JournalFile.table [new_entry], some [new_entry])
  | JournalFile.malformed =>
    if writeFails then (JournalFile.malformed, none)
    else (JournalFile.table [new_entry], some [new_entry])
  | JournalFile.table rows =>
    if !rows.isEmpty && rows.any (matchesTuple timestamp mood energy note) then
      (JournalFile.table rows, some rows)
    else if writeFails then (JournalFile.table rows, none)
    else (JournalFile.table (rows ++ [new_entry]), some (rows ++ [new_entry]))

/-- The on-disk journal state after a (write-succeeding) save. -/
def saveJournal (timestamp mood : String) (energy : Int) (note : String)
    (f : JournalFile) : JournalFile :=
  (save_to_mind_flow_db false timestamp mood energy note f).1

/-- How many stored rows exactly match the tuple. -/
def countTupleF (f : JournalFile) (timestamp mood : String) (energy : Int) (note : String) : Nat :=
  match f with
  | JournalFile.table rows => rows.countP (fun r => matchesTuple timestamp mood energy note r)
  | _ => 0

/-- Whether some stored row exactly matches the tuple. -/
def hasTupleF (f : JournalFile) (timestamp mood : String) (energy : Int) (note : String) : Bool :=
  match f with
  | JournalFile.table rows => rows.any (matchesTuple timestamp mood energy note)
  | _ => false

/-- `update_journal` (`app.py` lines 548-570): unconditionally appends the
entry to `st.session_state.journal_db`, then tries the CSV save inside
`try`/`except`; a `None` result (or exception) only prints a warning.
Result: `(session journal, on-disk journal, warning logged?)`.  The
function is total: no exception escapes it. -/
def update_journal (writeFails : Bool) (now mood : String) (energy : Int) (note : String)
    (session_journal : List JRow) (f : JournalFile) :
    List JRow × JournalFile × Bool :=
  let new_entry : JRow := ⟨now, mood, energy, note⟩
  let session2 := session_journal ++ [new_entry]
  let saved := save_to_mind_flow_db writeFails now mood energy note f
  (session2, saved.1, saved.2.isNone)

/-- `save_journal_entry` (`brain.py` lines 126-146), as instantiated in
`app.py` with `update_callback = update_journal`: forwards the arguments
to the callback with no validation of any kind and returns the
confirmation string. -/
def save_journal_entry (writeFails : Bool) (now mood : String) (energy : Int) (note : String)
    (session_journal : List JRow) (f : JournalFile) :
    (List JRow × JournalFile × Bool) × String :=
  (update_journal writeFails now mood energy note session_journal f,
   "✅ 已紀錄：Mood=" ++ mood ++ ", Energy=" ++ toString energy)

/-! ## Plans history store (`brain.py` lines 93-122) -/

/-- One row of `data/plans_database.csv`. -/
structure PlanRow where
  timestamp : String
  vision : String
  system : String
deriving DecidableEq

/-- On-disk states of the plans CSV: missing-or-size-0 file, a file whose
read raises `EmptyDataError` (caught: fresh columns), a file whose read
raises `ParserError` (NOT caught in `save_plan_to_csv`), and a parsed
table. -/
inductive PlansFile where
  | absent
  | emptyData
  | malformed
  | table (rows : List PlanRow)
deriving DecidableEq

/-- `save_plan_to_csv` (`brain.py` lines 93-122): appends one timestamped
(vision, system) record.  `EmptyDataError` is caught and replaced by fresh
columns; `ParserError` propagates. -/
def save_plan_to_csv (vision system now : String) : PlansFile → Except PyErr PlansFile
  | PlansFile.absent => Except.ok (PlansFile.table [⟨now, vision, system⟩])
  | PlansFile.emptyData => Except.ok (PlansFile.table [⟨now, vision, system⟩])
  | PlansFile.malformed => Except.error PyErr.parserError
  | PlansFile.table rows => Except.ok (PlansFile.table (rows ++ [⟨now, vision, system⟩]))

/-- Appending one record to the plans history, as a statement-level notion
(fresh table when there was none). -/
def appendPlanRow (p : PlansFile) (r : PlanRow) : PlansFile :=
  match p with
  | PlansFile.table rows => PlansFile.table (rows ++ [r])
  | _ => PlansFile.table [r]

/-! ## `set_full_plan` (`brain.py` lines 149-181) -/

/-- The on-disk stores plus the process state that `set_full_plan`
touches. `profileWriteFails` models a disk error on the profile write. -/
structure World where
  profileFile : ProfileFile
  profileWriteFails : Bool
  plansFile : PlansFile
  journalFile : JournalFile
  currentPlan : UserProfile
deriving DecidableEq

/-- The success message returned by `set_full_plan`. -/
def set_plan_message (vision system : String) : String :=
  "✅ 計畫已更新並保存！\n🔭 願景：" ++ vision ++ "\n⚙️ 系統：" ++ system ++
  "\n💾 已保存到：data/user_profile.json 和 data/plans_database.csv" ++
  "\n\n💡 提示：Starter 會根據你的當前狀態動態生成微行動建議。"

/-- `set_full_plan` (`brain.py` lines 149-181), as instantiated in this
repository (`update_callback` is `None` everywhere the tool is created):
saves the profile JSON, appends to the plans CSV, reloads the global
`current_plan` from the saved file, and returns the confirmation message.
Any exception in those steps propagates to the caller. -/
def set_full_plan (vision system today now : String) (w : World) :
    Except PyErr (World × String) :=
  match save_user_profile w.profileWriteFails vision system today with
  | Except.error e => Except.error e
  | Except.ok pf =>
    match save_plan_to_csv vision system now w.plansFile with
    | Except.error e => Except.error e
    | Except.ok plf =>
      match load_user_profile pf with
      | Except.error e => Except.error e
      | Except.ok cp =>
        Except.ok ({ w with profileFile := pf, plansFile := plf, currentPlan := cp },
          set_plan_message vision system)

/-! ## Supervisor router (`brain.py` lines 792-865) -/

/-- The four personas / routing labels. -/
inductive Agent where
  | strategist
  | healer
  | starter
  | architect
deriving DecidableEq

def Agent.upper : Agent → String
  | Agent.strategist => "STRATEGIST"
  | Agent.healer => "HEALER"
  | Agent.starter => "STARTER"
  | Agent.architect => "ARCHITECT"

/-- Python truthiness of the optional string fields: `None` and `""` are
falsy. -/
def isFalsyOpt : Option String → Bool
  | none => true
  | some s => s == ""

/-- `not vision or vision is None or not system or system is None`
(`brain.py` lines 807 and 851). -/
def profileIncomplete (p : UserProfile) : Bool :=
  isFalsyOpt p.vision || p.vision == none || isFalsyOpt p.system || p.system == none

/-- The possible outcomes of `structured_llm.invoke` in `supervisor_node`:
either a `SupervisorDecision` object (whose `decision` field is constrained
by the schema to one of the four labels) or an exception. -/
inductive SupervisorLLM where
  | ok (decision : Agent) (reasoning : String)
  | failure (err : String)
deriving DecidableEq

/-- The state fields `supervisor_node` returns. -/
structure SupervisorOutput where
  next_step : Agent
  debug_info : String
  reasoning : String
deriving DecidableEq

/-- The `debug_info` string built at `brain.py` line 859. -/
def mkDebugInfo (decision : Agent) (vision system : Option String) : String :=
  "[🔀 Supervisor 路由到: " ++ decision.upper ++ "] (Vision: " ++
  (if isFalsyOpt vision then "✗" else "✓") ++ ", System: " ++
  (if isFalsyOpt system then "✗" else "✓") ++ ")"

/-- `supervisor_node` (`brain.py` lines 792-865).  `profile` is the result
of the `load_user_profile()` call at the top of the node; `llmResult` is
the outcome of the single structured-output call.  On success the node
routes to the label the call returned — the incomplete-profile priority
rule only alters the prompt text, not the routing.  On failure it logs and
falls back to STRATEGIST when vision or system is missing/empty, HEALER
otherwise.  There is no retry: exactly one call per turn. -/
def supervisor_node (profile : UserProfile) (llmResult : SupervisorLLM) : SupervisorOutput :=
  let vision := profile.vision
  let system := profile.system
  match llmResult with
  | SupervisorLLM.ok decision reasoningText =>
    { next_step := decision
      debug_info := mkDebugInfo decision vision system
      reasoning := reasoningText }
  | SupervisorLLM.failure e =>
    let selected : Agent :=
      if isFalsyOpt vision || vision == none || isFalsyOpt system || system == none then
        Agent.strategist
      else
        Agent.healer
    { next_step := selected
      debug_info := mkDebugInfo selected vision system
      reasoning := "結構化輸出解析失敗: " ++ e }

/-! ## Helper lemmas -/

/-- A fresh entry matches its own tuple. -/
theorem matchesTuple_self (t m : String) (e : Int) (n : String) :
    matchesTuple t m e n ⟨t, m, e, n⟩ = true := by
  simp [matchesTuple]

/-! ## C1: safety-keyword inputs and the turn's output -/

/-- C1 (counterexample): the claim "for every user input containing a safety
keyword, the turn's assistant output is exactly the fixed safety message"
is false: `"you are now suicide"` contains the keyword `suicide`, but
`input_guard` rejects it first (prompt-injection pattern `you\s+are\s+now`),
so the turn produces no assistant output at all. -/
theorem c1_counterexample :
    containsSafetyKeyword "you are now suicide" = true ∧
    (processTurn "you are now suicide" false "some llm reply").output = none ∧
    (processTurn "you are now suicide" false "some llm reply").output ≠ some SAFETY_MESSAGE := by
  decide

/-- C1 (amended): for every user input that passes `input_guard` and
contains a safety keyword, the turn's assistant output is exactly
`SAFETY_MESSAGE`, the brain (LLM) is not invoked, and no persistence write
occurs — whatever the brain would have done. -/
theorem c1_safety_gate (prompt brainOutput : String) (brainWrites : Bool)
    (hguard : (input_guard prompt).1 = true)
    (hkey : containsSafetyKeyword prompt = true) :
    processTurn prompt brainWrites brainOutput =
      { output := some SAFETY_MESSAGE, llmCalled := false, persistenceWrites := false } := by
  simp [processTurn, hguard, hkey]

/-- C1 (witness): the amended theorem at the guard-passing keyword input
`"i want to die"`, with a brain that would have written. -/
theorem c1_witness :
    (input_guard "i want to die").1 = true ∧
    containsSafetyKeyword "i want to die" = true ∧
    processTurn "i want to die" true "some llm reply" =
      { output := some SAFETY_MESSAGE, llmCalled := false, persistenceWrites := false } :=
  ⟨by decide, by decide, c1_safety_gate "i want to die" "some llm reply" true (by decide) (by decide)⟩

/-! ## C2: position of the safety gate in the turn -/

/-- C2 (counterexample): the claim "no other input validation can prevent
the safety message from being produced" is false: `input_guard` runs before
the safety gate, and this keyword-bearing input is rejected by the
`pretend\s+to\s+be` pattern, so no safety message is produced. -/
theorem c2_counterexample :
    containsSafetyKeyword "pretend to be my friend, i want to kill myself" = true ∧
    (processTurn "pretend to be my friend, i want to kill myself" false "some llm reply").output
      = none := by
  decide

/-- C2 (amended): the safety gate runs after `input_guard` but before any
LLM processing: whenever the input contains a safety keyword the brain is
never invoked (also when the guard rejects), and whenever the input
additionally passes `input_guard` the gate unconditionally produces the
safety message, regardless of any brain behaviour. -/
theorem c2_gate_before_llm (prompt brainOutput : String) (brainWrites : Bool)
    (hkey : containsSafetyKeyword prompt = true) :
    (processTurn prompt brainWrites brainOutput).llmCalled = false ∧
    ((input_guard prompt).1 = true →
      (processTurn prompt brainWrites brainOutput).output = some SAFETY_MESSAGE) := by
  cases hg : (input_guard prompt).1 <;> simp [processTurn, hg, hkey]

/-- C2 (witness): the amended theorem at the guard-passing keyword input
`"thinking about self harm"`. -/
theorem c2_witness :
    containsSafetyKeyword "thinking about self harm" = true ∧
    (processTurn "thinking about self harm" true "some llm reply").llmCalled = false ∧
    (processTurn "thinking about self harm" true "some llm reply").output = some SAFETY_MESSAGE :=
  ⟨by decide,
   (c2_gate_before_llm "thinking about self harm" "some llm reply" true (by decide)).1,
   (c2_gate_before_llm "thinking about self harm" "some llm reply" true (by decide)).2 (by decide)⟩

/-! ## C3: routing with an incomplete profile -/

/-- C3 (counterexample): the claim "for incomplete profiles the router's
output is STRATEGIST for every possible result of the LLM classification
call" is false: with an empty profile, a successful classification that
returns ARCHITECT is routed to ARCHITECT — the incomplete-profile priority
only changes the prompt, not the code path. -/
theorem c3_counterexample :
    profileIncomplete ⟨none, none, none⟩ = true ∧
    (supervisor_node ⟨none, none, none⟩
        (SupervisorLLM.ok Agent.architect "step 1 ... step 3")).next_step = Agent.architect ∧
    Agent.architect ≠ Agent.strategist ∧ Agent.architect ≠ Agent.healer := by
  decide

/-- C3 (amended): for every profile with a missing/empty vision or system
field, the router deterministically yields STRATEGIST only when the
classification call fails; when the call succeeds it yields whatever label
the call returned.  (The safety-keyword/HEALER override lives in the app
turn handler before the router, not in `supervisor_node`.) -/
theorem c3_incomplete_routing (p : UserProfile) (e r : String) (d : Agent)
    (h : profileIncomplete p = true) :
    (supervisor_node p (SupervisorLLM.failure e)).next_step = Agent.strategist ∧
    (supervisor_node p (SupervisorLLM.ok d r)).next_step = d := by
  have h2 : (isFalsyOpt p.vision || p.vision == none ||
      isFalsyOpt p.system || p.system == none) = true := h
  exact ⟨by simp [supervisor_node, h2], rfl⟩

/-- C3 (witness): the amended theorem at a vision-only profile. -/
theorem c3_witness :
    (supervisor_node ⟨some "climb a mountain", none, none⟩
        (SupervisorLLM.failure "timeout")).next_step = Agent.strategist ∧
    (supervisor_node ⟨some "climb a mountain", none, none⟩
        (SupervisorLLM.ok Agent.starter "go")).next_step = Agent.starter :=
  ⟨(c3_incomplete_routing ⟨some "climb a mountain", none, none⟩ "timeout" "go" Agent.starter
      (by decide)).1,
   (c3_incomplete_routing ⟨some "climb a mountain", none, none⟩ "timeout" "go" Agent.starter
      (by decide)).2⟩

/-! ## C4: fallback on classification failure -/

/-- C4 (counterexample): the claim that the failure fallback is "a single
fixed default label — the same label for every state" is false: with an
incomplete profile the fallback is STRATEGIST, with a complete profile it
is HEALER. -/
theorem c4_counterexample :
    (supervisor_node ⟨none, none, none⟩ (SupervisorLLM.failure "boom")).next_step
      = Agent.strategist ∧
    (supervisor_node ⟨some "V", some "S", some "2026-10-12"⟩
        (SupervisorLLM.failure "boom")).next_step = Agent.healer ∧
    Agent.strategist ≠ Agent.healer := by
  decide

/-- C4 (amended): on classification failure the router performs no retry
(the node makes exactly one call by construction), logs the failure in its
`reasoning` field, and falls back to a default determined by profile
completeness: STRATEGIST exactly when vision or system is missing/empty,
HEALER exactly otherwise; the conversation continues with that label. -/
theorem c4_fallback (p : UserProfile) (e : String) :
    ((supervisor_node p (SupervisorLLM.failure e)).next_step = Agent.strategist ↔
      profileIncomplete p = true) ∧
    ((supervisor_node p (SupervisorLLM.failure e)).next_step = Agent.healer ↔
      profileIncomplete p = false) ∧
    (supervisor_node p (SupervisorLLM.failure e)).reasoning = "結構化輸出解析失敗: " ++ e := by
  cases hp : profileIncomplete p <;>
    have hp2 : (isFalsyOpt p.vision || p.vision == none ||
        isFalsyOpt p.system || p.system == none) = _ := hp <;>
    simp [supervisor_node, hp2]

/-! ## C5: journal deduplication -/

/-- C5 (confirmed): writing the same (timestamp, mood, energy, note) tuple
twice stores exactly one matching record, and a write whose exact tuple is
already present leaves the stored file unchanged. -/
theorem c5_dedup (f : JournalFile) (t m : String) (e : Int) (n : String) :
    (countTupleF f t m e n = 0 →
      countTupleF (saveJournal t m e n (saveJournal t m e n f)) t m e n = 1) ∧
    (hasTupleF f t m e n = true → saveJournal t m e n f = f) := by
  constructor
  · intro h0
    cases f with
    | table rows =>
      have h0' : rows.countP (fun r => matchesTuple t m e n r) = 0 := h0
      have hany : rows.any (matchesTuple t m e n) = false :=
        List.any_eq_false.mpr (List.countP_eq_zero.mp h0')
      have hs1 : saveJournal t m e n (JournalFile.table rows)
          = JournalFile.table (rows ++ [⟨t, m, e, n⟩]) := by
        simp [saveJournal, save_to_mind_flow_db, hany]
      have hany2 : (rows ++ [(⟨t, m, e, n⟩ : JRow)]).any (matchesTuple t m e n) = true := by
        simp [List.any_append, matchesTuple_self]
      have hs2 : saveJournal t m e n (JournalFile.table (rows ++ [⟨t, m, e, n⟩]))
          = JournalFile.table (rows ++ [⟨t, m, e, n⟩]) := by
        simp [saveJournal, save_to_mind_flow_db, hany2]
      rw [hs1, hs2]
      simp [countTupleF, List.countP_append, h0', List.countP_cons, matchesTuple_self]
    | absent =>
      simp [saveJournal, save_to_mind_flow_db, countTupleF, matchesTuple_self,
        List.countP_cons]
    | malformed =>
      simp [saveJournal, save_to_mind_flow_db, countTupleF, matchesTuple_self,
        List.countP_cons]
  · intro h
    cases f with
    | table rows =>
      have hne : rows.isEmpty = false := by
        rcases List.any_eq_true.mp h with ⟨r, hr, _⟩
        cases rows with
        | nil => cases hr
        | cons a l => rfl
      simp only [hasTupleF] at h
      simp [saveJournal, save_to_mind_flow_db, hne, h]
    | absent => cases h
    | malformed => cases h

/-- C5 (witness): the theorem at a concrete tuple, starting from a missing
file for the counting half and from a file already holding the tuple for
the unchanged half. -/
theorem c5_witness :
    countTupleF (saveJournal "2026-10-12 09:00" "proud" 7 "did 10 squats"
        (saveJournal "2026-10-12 09:00" "proud" 7 "did 10 squats" JournalFile.absent))
      "2026-10-12 09:00" "proud" 7 "did 10 squats" = 1 ∧
    saveJournal "2026-10-12 09:00" "proud" 7 "did 10 squats"
        (JournalFile.table [⟨"2026-10-12 09:00", "proud", 7, "did 10 squats"⟩])
      = JournalFile.table [⟨"2026-10-12 09:00", "proud", 7, "did 10 squats"⟩] :=
  ⟨(c5_dedup JournalFile.absent "2026-10-12 09:00" "proud" 7 "did 10 squats").1 (by decide),
   (c5_dedup (JournalFile.table [⟨"2026-10-12 09:00", "proud", 7, "did 10 squats"⟩])
      "2026-10-12 09:00" "proud" 7 "did 10 squats").2 (by decide)⟩

/-! ## C6: loading missing/empty/malformed persisted files -/

/-- C6 (counterexample): the claim "for every malformed persisted file,
loading returns the default state and raises no exception" is false for
the profile store: a file holding valid JSON that is not an object (for
example the JSON text `[1, 2]`) makes `load_user_profile` raise
`AttributeError` at `profile.get("vision")` — only `JSONDecodeError` and
`IOError` are caught. -/
theorem c6_counterexample :
    load_user_profile ProfileFile.jsonNonObject = Except.error PyErr.attributeError ∧
    load_user_profile ProfileFile.jsonNonObject ≠ Except.ok ⟨none, none, none⟩ :=
  ⟨rfl, by simp [load_user_profile]⟩

/-- C6 (amended): for a missing file, an unreadable file, or a file whose
content is not valid JSON (including the empty file), `load_user_profile`
returns the all-`None` profile without raising; for a missing, empty or
unparseable journal CSV, `load_mind_flow_db` returns the empty table with
the four required columns without raising.  (A profile file holding valid
JSON that is not an object instead raises.) -/
theorem c6_default_loading :
    load_user_profile ProfileFile.missing = Except.ok ⟨none, none, none⟩ ∧
    load_user_profile ProfileFile.unreadable = Except.ok ⟨none, none, none⟩ ∧
    load_user_profile ProfileFile.invalidJson = Except.ok ⟨none, none, none⟩ ∧
    load_mind_flow_db JournalFile.absent = (required_cols, []) ∧
    load_mind_flow_db JournalFile.malformed = (required_cols, []) :=
  ⟨rfl, rfl, rfl, rfl, rfl⟩

/-! ## C7: persistence write failures -/

/-- C7 (counterexample): the claim "for every persistence write that
fails, ... the failure is never fatal (no exception propagates to abort
the turn)" is false for the profile store: `save_user_profile` has no
error handling, so a failing profile write makes `set_full_plan` raise,
aborting the turn before the in-memory `current_plan` is refreshed. -/
theorem c7_counterexample :
    set_full_plan "run a 10k" "run 5 minutes daily" "2026-10-12" "2026-10-12 09:00:00"
        ⟨ProfileFile.missing, true, PlansFile.absent, JournalFile.absent, ⟨none, none, none⟩⟩
      = Except.error PyErr.ioError := rfl

/-- C7 (amended): for the journal store the claim holds: when the CSV
write fails, `update_journal` still appends the entry to the in-session
journal, leaves the on-disk file as it was (no rollback of the session
update takes place), never raises (it is a total function), and — whenever
an actual write was attempted, i.e. the tuple was not already present — a
warning is logged.  (A failing profile JSON write instead propagates, per
the counterexample.) -/
theorem c7_journal_failure (now mood : String) (energy : Int) (note : String)
    (sess : List JRow) (f : JournalFile) :
    (update_journal true now mood energy note sess f).1 = sess ++ [⟨now, mood, energy, note⟩] ∧
    (update_journal true now mood energy note sess f).2.1 = f ∧
    (hasTupleF f now mood energy note = false →
      (update_journal true now mood energy note sess f).2.2 = true) := by
  refine ⟨rfl, ?_, ?_⟩
  · cases f with
    | table rows =>
      simp only [update_journal, save_to_mind_flow_db]
      split <;> rfl
    | absent => rfl
    | malformed => rfl
  · intro h
    cases f with
    | table rows =>
      simp only [hasTupleF] at h
      simp [update_journal, save_to_mind_flow_db, h]
    | absent => rfl
    | malformed => rfl

/-- C7 (witness): the amended theorem at a concrete failing journal write
on a missing file. -/
theorem c7_witness :
    (update_journal true "2026-10-12 09:00" "calm" 5 "walked" [] JournalFile.absent).1
      = [⟨"2026-10-12 09:00", "calm", 5, "walked"⟩] ∧
    (update_journal true "2026-10-12 09:00" "calm" 5 "walked" [] JournalFile.absent).2.1
      = JournalFile.absent ∧
    (update_journal true "2026-10-12 09:00" "calm" 5 "walked" [] JournalFile.absent).2.2
      = true :=
  ⟨(c7_journal_failure "2026-10-12 09:00" "calm" 5 "walked" [] JournalFile.absent).1,
   (c7_journal_failure "2026-10-12 09:00" "calm" 5 "walked" [] JournalFile.absent).2.1,
   (c7_journal_failure "2026-10-12 09:00" "calm" 5 "walked" [] JournalFile.absent).2.2
     (by decide)⟩

/-! ## C8: the energy range -/

/-- C8 (counterexample): the claim "either the energy argument lies in
1–10 or the entry is not stored" is false: logging an entry with energy
999 stores it verbatim — no range validation exists anywhere on the path.
-/
theorem c8_counterexample :
    (update_journal false "2026-10-12 10:00" "anxious" 999 "overdid it" []
        JournalFile.absent).2.1
      = JournalFile.table [⟨"2026-10-12 10:00", "anxious", 999, "overdid it"⟩] ∧
    ¬(1 ≤ (999 : Int) ∧ (999 : Int) ≤ 10) := by
  decide

/-- C8 (amended): the journal-logging operation stores the energy argument
exactly as given, with no validation or clamping: the session journal
always receives the entry verbatim, and (when the write succeeds and the
tuple is new) so does the CSV — for every integer energy, in or out of
1–10.  The 1–10 range exists only in the tool's natural-language
description. -/
theorem c8_no_validation (wf : Bool) (now mood : String) (energy : Int) (note : String)
    (sess : List JRow) (f : JournalFile) :
    (save_journal_entry wf now mood energy note sess f).1.1
      = sess ++ [⟨now, mood, energy, note⟩] ∧
    (save_journal_entry false now mood energy note sess JournalFile.absent).1.2.1
      = JournalFile.table [⟨now, mood, energy, note⟩] :=
  ⟨rfl, rfl⟩

/-! ## C9: profile save/load round-trip -/

/-- C9 (confirmed): if `save_user_profile vision system` succeeds, a
subsequent `load_user_profile` of the written file returns exactly the
saved vision and system, with `last_updated` set to the save date. -/
theorem c9_roundtrip (wf : Bool) (vision system today : String) (pf : ProfileFile)
    (h : save_user_profile wf vision system today = Except.ok pf) :
    load_user_profile pf = Except.ok ⟨some vision, some system, some today⟩ := by
  cases wf with
  | true => simp [save_user_profile] at h
  | false =>
    simp [save_user_profile] at h
    subst h
    rfl

/-- C9 (witness): the round-trip at a concrete vision/system/date. -/
theorem c9_witness :
    load_user_profile (ProfileFile.jsonObject (some "lose 6kg in 12 weeks")
        (some "walk 10 minutes after dinner") (some "2026-10-12"))
      = Except.ok ⟨some "lose 6kg in 12 weeks", some "walk 10 minutes after dinner",
          some "2026-10-12"⟩ :=
  c9_roundtrip false "lose 6kg in 12 weeks" "walk 10 minutes after dinner" "2026-10-12" _ rfl

/-! ## C10: the write frame of `set_full_plan` -/

/-- C10 (confirmed): every successful `set_full_plan` overwrites the
profile file with exactly (vision, system, today), appends exactly one
timestamped (vision, system) record to the plans-history CSV, leaves the
journal store untouched, and refreshes the in-memory `current_plan` from
the freshly saved file. -/
theorem c10_frame (w : World) (vision system today now : String) (w2 : World) (msg : String)
    (h : set_full_plan vision system today now w = Except.ok (w2, msg)) :
    w2.journalFile = w.journalFile ∧
    w2.profileFile = ProfileFile.jsonObject (some vision) (some system) (some today) ∧
    w2.plansFile = appendPlanRow w.plansFile ⟨now, vision, system⟩ ∧
    w2.currentPlan = ⟨some vision, some system, some today⟩ := by
  cases hw : w.profileWriteFails with
  | true => simp [set_full_plan, save_user_profile, hw] at h
  | false =>
    cases hp : w.plansFile with
    | malformed => simp [set_full_plan, save_user_profile, save_plan_to_csv, hw, hp] at h
    | absent =>
      simp [set_full_plan, save_user_profile, save_plan_to_csv, load_user_profile, hw, hp,
        Prod.ext_iff] at h
      obtain ⟨h1, -⟩ := h
      rw [← h1]
      simp [appendPlanRow]
    | emptyData =>
      simp [set_full_plan, save_user_profile, save_plan_to_csv, load_user_profile, hw, hp,
        Prod.ext_iff] at h
      obtain ⟨h1, -⟩ := h
      rw [← h1]
      simp [appendPlanRow]
    | table rows =>
      simp [set_full_plan, save_user_profile, save_plan_to_csv, load_user_profile, hw, hp,
        Prod.ext_iff] at h
      obtain ⟨h1, -⟩ := h
      rw [← h1]
      simp [appendPlanRow]

/-- C10 (witness): a concrete successful call from a fresh world. -/
theorem c10_witness :
    (⟨ProfileFile.jsonObject (some "V") (some "S") (some "D"), false,
        PlansFile.table [⟨"N", "V", "S"⟩], JournalFile.absent,
        ⟨some "V", some "S", some "D"⟩⟩ : World).journalFile
      = (⟨ProfileFile.missing, false, PlansFile.absent, JournalFile.absent,
          ⟨none, none, none⟩⟩ : World).journalFile ∧
    (⟨ProfileFile.jsonObject (some "V") (some "S") (some "D"), false,
        PlansFile.table [⟨"N", "V", "S"⟩], JournalFile.absent,
        ⟨some "V", some "S", some "D"⟩⟩ : World).profileFile
      = ProfileFile.jsonObject (some "V") (some "S") (some "D") ∧
    (⟨ProfileFile.jsonObject (some "V") (some "S") (some "D"), false,
        PlansFile.table [⟨"N", "V", "S"⟩], JournalFile.absent,
        ⟨some "V", some "S", some "D"⟩⟩ : World).plansFile
      = appendPlanRow (⟨ProfileFile.missing, false, PlansFile.absent, JournalFile.absent,
          ⟨none, none, none⟩⟩ : World).plansFile ⟨"N", "V", "S"⟩ ∧
    (⟨ProfileFile.jsonObject (some "V") (some "S") (some "D"), false,
        PlansFile.table [⟨"N", "V", "S"⟩], JournalFile.absent,
        ⟨some "V", some "S", some "D"⟩⟩ : World).currentPlan
      = ⟨some "V", some "S", some "D"⟩ :=
  c10_frame ⟨ProfileFile.missing, false, PlansFile.absent, JournalFile.absent,
      ⟨none, none, none⟩⟩ "V" "S" "D" "N"
    ⟨ProfileFile.jsonObject (some "V") (some "S") (some "D"), false,
      PlansFile.table [⟨"N", "V", "S"⟩], JournalFile.absent,
      ⟨some "V", some "S", some "D"⟩⟩ (set_plan_message "V" "S") rfl

end Momentum
